import Mathlib

/-!
Verification of the shape-rotation task generator (`src/generator.py`).

The development shallowly embeds the generator:
* the combinatorial task sampler (`_generate_task_data`,
  `_generate_systematic_unique_combination`, `_generate_rotation_task`),
  with the `random` module modelled as an explicit stream of draws;
* the geometry engine (`_rotate_points`, the per-shape vertex tables of
  `_draw_rotated_shape`), with Python floats modelled as real numbers and
  `int()` as truncation toward zero;
* the animation synthesizer (`_create_transformation_frames`,
  `_create_rotation_morph_frames`), with a rendered frame modelled as the
  list of drawing operations issued against the PIL draw surface.
-/

namespace ShapeRotation

/-- Embeds `TaskGenerator.base_shapes` (generator.py, `__init__`). -/
def base_shapes : List String :=
  ["square", "triangle", "diamond", "pentagon", "hexagon",
   "rectangle", "star", "heart", "arrow", "cross", "octagon",
   "trapezoid", "rhombus", "plus", "minus", "L_shape", "T_shape",
   "parallelogram", "kite", "chevron"]

/-- Embeds `TaskGenerator.rotation_angles` (generator.py, `__init__`); the Python
float literals are exact decimals, embedded as rationals (`mkRat n 10`
writes the decimal `n/10`, e.g. `mkRat 225 10 = 22.5`). -/
def rotation_angles : List ℚ :=
  [15, mkRat 225 10, 30, mkRat 375 10, 45, mkRat 525 10, 60, mkRat 675 10,
   75, mkRat 825 10, 90, mkRat 975 10,
   105, mkRat 1125 10, 120, mkRat 1275 10, 135, mkRat 1425 10,
   150, mkRat 1575 10, 165, mkRat 1725 10,
   180, mkRat 1875 10, 195, mkRat 2025 10, 210, mkRat 2175 10,
   225, mkRat 2325 10, 240, mkRat 2475 10,
   255, mkRat 2625 10, 270, mkRat 2775 10, 285, mkRat 2925 10,
   300, mkRat 3075 10, 315, mkRat 3225 10,
   330, mkRat 3375 10, 345, mkRat 3525 10]

/-- Embeds `TaskGenerator.shape_color` (generator.py, `__init__`). -/
def shape_color : ℕ × ℕ × ℕ := (70, 130, 180)

/-- The `combination_key` tuples `(shape_a, shape_c, rotation_angle)`. -/
abbrev CombKey := String × String × ℚ

/-- The task-data dictionary returned by `_generate_rotation_task`
(the human-readable `description` string is not modelled). -/
structure TaskData where
  transformation_type : String
  shape_a : String
  shape_b : String
  shape_c : String
  shape_d : String
  rotation_angle : ℚ
  deriving DecidableEq, Repr

/-- Embeds `TaskGenerator._generate_rotation_task`. -/
def generate_rotation_task (shape_a shape_c : String) (rotation_angle : ℚ) :
    TaskData :=
  { transformation_type := "rotation"
    shape_a := shape_a
    shape_b := shape_a   -- Same shape, different rotation
    shape_c := shape_c
    shape_d := shape_c   -- Same shape, different rotation
    rotation_angle := rotation_angle }

/-- The combination key recorded for a generated task. -/
def taskKey (t : TaskData) : CombKey := (t.shape_a, t.shape_c, t.rotation_angle)

/-- The quantity `max_unique_combinations` as computed in `_generate_task_data`. -/
def max_unique_combinations : ℕ :=
  base_shapes.length * (base_shapes.length - 1) * rotation_angles.length

/-- One draw of the `random` module inside the attempt loop:
`random.sample(base_shapes, 2)` followed by `random.choice(rotation_angles)`
yields a candidate key.  The semantics of the two `random` primitives is
captured by the `ValidKey` predicate on draws. -/
def ValidKey (k : CombKey) : Prop :=
  k.1 ∈ base_shapes ∧ k.2.1 ∈ base_shapes ∧ k.1 ≠ k.2.1 ∧ k.2.2 ∈ rotation_angles

instance : DecidablePred ValidKey := fun _ => by unfold ValidKey; infer_instance

/-- The attempt loop of `_generate_task_data`: return the first drawn key
that is not in `generated_combinations`, or `none` if the list of draws is
exhausted. -/
def findFirstUnseen (seen : Finset CombKey) : List CombKey → Option CombKey
  | [] => none
  | k :: ks => if k ∈ seen then findFirstUnseen seen ks else some k

/-- The nested loops of `_generate_systematic_unique_combination`:
`shape_a` over the catalog, `shape_c` over the catalog skipping
`shape_a == shape_c`, `rotation_angle` over the angle catalog. -/
def allCombinations : List CombKey :=
  base_shapes.flatMap (fun shape_a =>
    base_shapes.flatMap (fun shape_c =>
      if shape_a = shape_c then []
      else rotation_angles.map (fun rotation_angle => (shape_a, shape_c, rotation_angle))))

/-- Embeds `TaskGenerator._generate_systematic_unique_combination`.
`none` models the `RuntimeError` branch. -/
def generate_systematic_unique_combination (seen : Finset CombKey) :
    Option (TaskData × Finset CombKey) :=
  match findFirstUnseen seen allCombinations with
  | some k => some (generate_rotation_task k.1 k.2.1 k.2.2, insert k seen)
  | none => none

/-- Embeds `TaskGenerator._generate_task_data`.  Here `draws` is the stream of random
keys consumed by the (up to 1000) attempts, `replacementDraw` the random key
drawn on the with-replacement path after exhaustion.  The returned `Bool`
records whether the exhaustion warning was printed on this call; `none`
models the `RuntimeError` of the systematic fallback. -/
def generate_task_data (draws : List CombKey) (replacementDraw : CombKey)
    (seen : Finset CombKey) : Option (TaskData × Bool × Finset CombKey) :=
  if seen.card < max_unique_combinations then
    match findFirstUnseen seen (draws.take 1000) with
    | some k => some (generate_rotation_task k.1 k.2.1 k.2.2, false, insert k seen)
    | none =>
      match generate_systematic_unique_combination seen with
      | some (t, seen') => some (t, false, seen')
      | none => none
  else
    some (generate_rotation_task replacementDraw.1 replacementDraw.2.1 replacementDraw.2.2,
      decide (seen.card = max_unique_combinations), seen)

/-- A sequence of calls to `_generate_task_data` on one `TaskGenerator`,
with the per-call randomness given up front.  Returns the emitted tasks with
their warning flags and the final `generated_combinations` state. -/
def runGenerator (seen : Finset CombKey) :
    List (List CombKey × CombKey) → Option (List (TaskData × Bool) × Finset CombKey)
  | [] => some ([], seen)
  | r :: rs =>
    match generate_task_data r.1 r.2 seen with
    | none => none
    | some (t, w, seen') =>
      match runGenerator seen' rs with
      | none => none
      | some (out, final) => some ((t, w) :: out, final)

/-! ### Basic facts about the catalogs and the key space -/

lemma base_shapes_nodup : base_shapes.Nodup := by decide

lemma rotation_angles_nodup : rotation_angles.Nodup := by decide

lemma max_unique_combinations_eq : max_unique_combinations = 17480 := by decide

/-- The list built for one `shape_a`/`shape_c` pair in the systematic scan. -/
lemma mem_scan_cell {shape_a shape_c : String} {k : CombKey}
    (hk : k ∈ (if shape_a = shape_c then ([] : List CombKey)
      else rotation_angles.map (fun θ => (shape_a, shape_c, θ)))) :
    k.1 = shape_a ∧ k.2.1 = shape_c ∧ k.2.2 ∈ rotation_angles ∧ shape_a ≠ shape_c := by
  split at hk
  · simp at hk
  · rcases List.mem_map.1 hk with ⟨θ, hθ, rfl⟩
    exact ⟨rfl, rfl, hθ, by assumption⟩

/-- The inner double loop of the systematic scan, for a fixed `shape_a`. -/
def scanRow (shape_a : String) : List CombKey :=
  base_shapes.flatMap (fun shape_c =>
    if shape_a = shape_c then []
    else rotation_angles.map (fun rotation_angle => (shape_a, shape_c, rotation_angle)))

lemma allCombinations_eq_flatMap_scanRow :
    allCombinations = base_shapes.flatMap scanRow := rfl

lemma mem_scanRow {shape_a : String} {k : CombKey} (hk : k ∈ scanRow shape_a) :
    k.1 = shape_a ∧ k.2.1 ∈ base_shapes ∧ k.2.2 ∈ rotation_angles ∧ shape_a ≠ k.2.1 := by
  rcases List.mem_flatMap.1 hk with ⟨c, hc, hkc⟩
  obtain ⟨h1, h2, h3, h4⟩ := mem_scan_cell hkc
  exact ⟨h1, h2 ▸ hc, h3, h2 ▸ h4⟩

lemma scanRow_nodup (shape_a : String) : (scanRow shape_a).Nodup := by
  refine List.nodup_flatMap.2 ⟨fun c _ => ?_, ?_⟩
  · split
    · exact List.nodup_nil
    · exact rotation_angles_nodup.map (fun θ θ' h => by
        simpa using congrArg (fun p : CombKey => p.2.2) h)
  · refine base_shapes_nodup.imp ?_
    intro c c' hne k hk hk'
    obtain ⟨-, h2, -, -⟩ := mem_scan_cell hk
    obtain ⟨-, h2', -, -⟩ := mem_scan_cell hk'
    exact hne (h2 ▸ h2' ▸ rfl)

lemma allCombinations_nodup : allCombinations.Nodup := by
  rw [allCombinations_eq_flatMap_scanRow]
  refine List.nodup_flatMap.2 ⟨fun a _ => scanRow_nodup a, ?_⟩
  refine base_shapes_nodup.imp ?_
  intro a a' hne k hk hk'
  exact hne ((mem_scanRow hk).1 ▸ (mem_scanRow hk').1 ▸ rfl)

/-- Every key enumerated by the systematic scan is a valid draw. -/
lemma validKey_of_mem_allCombinations {k : CombKey} (hk : k ∈ allCombinations) :
    ValidKey k := by
  rw [allCombinations_eq_flatMap_scanRow] at hk
  rcases List.mem_flatMap.1 hk with ⟨a, ha, hka⟩
  obtain ⟨h1, h2, h3, h4⟩ := mem_scanRow hka
  exact ⟨h1 ▸ ha, h2, fun h => h4 (h1 ▸ h), h3⟩

set_option maxRecDepth 4000 in
lemma allCombinations_length : allCombinations.length = 17480 := by
  simp only [allCombinations, base_shapes, List.flatMap_cons, List.flatMap_nil,
    List.length_append]
  decide

lemma allCombinations_toFinset_card : allCombinations.toFinset.card = 17480 := by
  rw [List.toFinset_card_of_nodup allCombinations_nodup, allCombinations_length]

/-! ### The attempt loop and the systematic fallback -/

lemma findFirstUnseen_eq_none {seen : Finset CombKey} {l : List CombKey}
    (h : findFirstUnseen seen l = none) : ∀ k ∈ l, k ∈ seen := by
  induction l with
  | nil => intro k hk; simp at hk
  | cons a l ih =>
    intro k hk
    unfold findFirstUnseen at h
    split at h
    · rcases List.mem_cons.1 hk with rfl | hk'
      · assumption
      · exact ih h k hk'
    · exact absurd h (by simp)

lemma findFirstUnseen_some {seen : Finset CombKey} {l : List CombKey} {k : CombKey}
    (h : findFirstUnseen seen l = some k) : k ∉ seen ∧ k ∈ l := by
  induction l with
  | nil => simp [findFirstUnseen] at h
  | cons a l ih =>
    unfold findFirstUnseen at h
    split at h
    · obtain ⟨h1, h2⟩ := ih h
      exact ⟨h1, List.mem_cons_of_mem _ h2⟩
    · cases h
      exact ⟨by assumption, List.mem_cons_self _ _⟩

/-- The systematic scan finds an unseen key whenever fewer than
17480 keys have been seen. -/
lemma findFirstUnseen_allCombinations_isSome {seen : Finset CombKey}
    (h : seen.card < 17480) :
    ∃ k, findFirstUnseen seen allCombinations = some k := by
  cases hfind : findFirstUnseen seen allCombinations with
  | some k => exact ⟨k, rfl⟩
  | none =>
    exfalso
    have hsub : allCombinations.toFinset ⊆ seen := fun k hk =>
      findFirstUnseen_eq_none hfind k (List.mem_toFinset.1 hk)
    have := Finset.card_le_card hsub
    rw [allCombinations_toFinset_card] at this
    exact absurd (lt_of_le_of_lt this h) (lt_irrefl _)

/-! ### Single-call behavior of `_generate_task_data` -/

/-- Any task returned through the uniqueness-enforcing branch carries a key
that was not yet seen, and the seen-set is extended by exactly that key. -/
lemma generate_task_data_step {draws : List CombKey} {rd : CombKey}
    {seen seen' : Finset CombKey} {t : TaskData} {w : Bool}
    (hcard : seen.card < max_unique_combinations)
    (h : generate_task_data draws rd seen = some (t, w, seen')) :
    taskKey t ∉ seen ∧ seen' = insert (taskKey t) seen := by
  unfold generate_task_data at h
  rw [if_pos hcard] at h
  cases hfind : findFirstUnseen seen (draws.take 1000) with
  | some k =>
    rw [hfind] at h
    cases h
    exact ⟨(findFirstUnseen_some hfind).1, rfl⟩
  | none =>
    rw [hfind] at h
    unfold generate_systematic_unique_combination at h
    cases hsys : findFirstUnseen seen allCombinations with
    | some k =>
      rw [hsys] at h
      cases h
      exact ⟨(findFirstUnseen_some hsys).1, rfl⟩
    | none => rw [hsys] at h; cases h

/-- The uniqueness-enforcing branch never fails while the key space is not
exhausted: the `RuntimeError` of the systematic fallback is unreachable. -/
lemma generate_task_data_isSome {draws : List CombKey} {rd : CombKey}
    {seen : Finset CombKey} (hcard : seen.card < 17480) :
    ∃ r, generate_task_data draws rd seen = some r := by
  unfold generate_task_data
  rw [if_pos (max_unique_combinations_eq ▸ hcard)]
  cases hfind : findFirstUnseen seen (draws.take 1000) with
  | some k => exact ⟨_, rfl⟩
  | none =>
    obtain ⟨k, hk⟩ := findFirstUnseen_allCombinations_isSome hcard
    unfold generate_systematic_unique_combination
    rw [hk]
    exact ⟨_, rfl⟩

/-! ### Multi-call runs of the sampler -/

/-- Invariant of a run that stays inside the uniqueness-enforcing regime:
the emitted keys are pairwise distinct and none of them was seen before the
run started. -/
lemma runGenerator_nodup_keys :
    ∀ (rands : List (List CombKey × CombKey)) (seen : Finset CombKey)
      (out : List (TaskData × Bool)) (final : Finset CombKey),
      seen.card + rands.length ≤ max_unique_combinations →
      runGenerator seen rands = some (out, final) →
      (out.map (fun p => taskKey p.1)).Nodup ∧ ∀ p ∈ out, taskKey p.1 ∉ seen := by
  intro rands
  induction rands with
  | nil =>
    intro seen out final _ hrun
    cases hrun
    exact ⟨List.nodup_nil, by simp⟩
  | cons r rs ih =>
    intro seen out final hlen hrun
    unfold runGenerator at hrun
    cases hstep : generate_task_data r.1 r.2 seen with
    | none => rw [hstep] at hrun; cases hrun
    | some res =>
      obtain ⟨t, w, seen₁⟩ := res
      rw [hstep] at hrun
      dsimp only at hrun
      cases hrest : runGenerator seen₁ rs with
      | none => rw [hrest] at hrun; cases hrun
      | some pr =>
        obtain ⟨out₁, fin₁⟩ := pr
        rw [hrest] at hrun
        cases hrun
        have hcard : seen.card < max_unique_combinations := by
          have : seen.card + (rs.length + 1) ≤ max_unique_combinations := by
            simpa [List.length_cons] using hlen
          omega
        obtain ⟨hnew, hins⟩ := generate_task_data_step hcard hstep
        have hcard₁ : seen₁.card = seen.card + 1 := by
          rw [hins, Finset.card_insert_of_not_mem hnew]
        obtain ⟨hnodup₁, hfresh₁⟩ := ih seen₁ out₁ _
          (by rw [hcard₁]; simpa [List.length_cons, Nat.add_assoc, Nat.add_comm 1] using hlen)
          hrest
        constructor
        · refine List.nodup_cons.2 ⟨?_, hnodup₁⟩
          intro hmem
          rcases List.mem_map.1 hmem with ⟨p, hp, hkey⟩
          exact hfresh₁ p hp (hkey ▸ hins ▸ Finset.mem_insert_self _ _)
        · intro p hp
          rcases List.mem_cons.1 hp with rfl | hp'
          · exact hnew
          · intro habs
            exact hfresh₁ p hp' (hins ▸ Finset.mem_insert_of_mem habs)

/-- C1: on a fresh generator, any run of at most 17480 = 20·19·46 calls to
`_generate_task_data` emits pairwise-distinct `(shape_a, shape_c,
rotation_angle)` keys: no key is re-emitted before the key space is
exhausted. -/
theorem c1_sampler_uniqueness (rands : List (List CombKey × CombKey))
    (out : List (TaskData × Bool)) (final : Finset CombKey)
    (hlen : rands.length ≤ 17480)
    (hrun : runGenerator ∅ rands = some (out, final)) :
    (out.map (fun p => taskKey p.1)).Nodup :=
  (runGenerator_nodup_keys rands ∅ out final
    (by simpa [max_unique_combinations_eq] using hlen) hrun).1

theorem c1_sampler_uniqueness_witness :
    ([(([("square", "triangle", 45)] : List CombKey), (("square", "triangle", 45) : CombKey)),
      ([("square", "diamond", 30)], ("square", "triangle", 45))].length ≤ 17480) ∧
    runGenerator ∅
      [([("square", "triangle", 45)], ("square", "triangle", 45)),
       ([("square", "diamond", 30)], ("square", "triangle", 45))]
      = some ([(generate_rotation_task "square" "triangle" 45, false),
               (generate_rotation_task "square" "diamond" 30, false)],
              insert ("square", "diamond", 30) (insert ("square", "triangle", 45) ∅)) ∧
    ([((generate_rotation_task "square" "triangle" 45, false) : TaskData × Bool),
      (generate_rotation_task "square" "diamond" 30, false)].map
        (fun p => taskKey p.1)).Nodup :=
  ⟨by decide, by decide,
    c1_sampler_uniqueness
      [([("square", "triangle", 45)], ("square", "triangle", 45)),
       ([("square", "diamond", 30)], ("square", "triangle", 45))]
      [(generate_rotation_task "square" "triangle" 45, false),
       (generate_rotation_task "square" "diamond" 30, false)]
      (insert ("square", "diamond", 30) (insert ("square", "triangle", 45) ∅))
      (by decide) (by decide)⟩

/-- C5: whenever strictly fewer than `max_keys = 17480` keys have been seen,
the deterministic exhaustive scan returns an unseen key; the `RuntimeError`
branch of `_generate_systematic_unique_combination` is unreachable under
that precondition. -/
theorem c5_systematic_scan_total (seen : Finset CombKey)
    (h : seen.card < 17480) :
    max_unique_combinations = 17480 ∧
    ∃ t seen', generate_systematic_unique_combination seen = some (t, seen') := by
  obtain ⟨k, hk⟩ := findFirstUnseen_allCombinations_isSome h
  exact ⟨max_unique_combinations_eq, _, _, by
    unfold generate_systematic_unique_combination; rw [hk]⟩

theorem c5_systematic_scan_total_witness :
    (∅ : Finset CombKey).card < 17480 ∧
    (max_unique_combinations = 17480 ∧
      ∃ t seen', generate_systematic_unique_combination ∅ = some (t, seen')) :=
  ⟨by decide, c5_systematic_scan_total ∅ (by decide)⟩

/-! ### Exhaustion behavior -/

/-- The `generated_combinations` state after the full 17480-key space has
been emitted. -/
def allCombinationsSeen : Finset CombKey := allCombinations.toFinset

lemma allCombinationsSeen_card :
    allCombinationsSeen.card = max_unique_combinations := by
  rw [allCombinationsSeen, allCombinations_toFinset_card, max_unique_combinations_eq]

/-- At an exhausted state the call goes through the with-replacement path:
it prints the warning, uses the fresh random draw, and leaves
`generated_combinations` unchanged. -/
lemma generate_task_data_exhausted {draws : List CombKey} {rd : CombKey}
    {seen : Finset CombKey} (h : seen.card = max_unique_combinations) :
    generate_task_data draws rd seen
      = some (generate_rotation_task rd.1 rd.2.1 rd.2.2, true, seen) := by
  unfold generate_task_data
  rw [if_neg (by omega)]
  simp [h]

/-- Once exhausted, the state never changes again, so every further call
repeats the with-replacement path and prints the warning. -/
lemma runGenerator_exhausted {seen : Finset CombKey}
    (h : seen.card = max_unique_combinations) :
    ∀ rands, runGenerator seen rands
      = some (rands.map
          (fun r => (generate_rotation_task r.2.1 r.2.2.1 r.2.2.2, true)), seen) := by
  intro rands
  induction rands with
  | nil => rfl
  | cons r rs ih =>
    unfold runGenerator
    rw [generate_task_data_exhausted h]
    dsimp only
    rw [ih]
    rfl

/-- C3 (counterexample): starting from the state in which all 17480 keys
have been emitted, two successive calls to `_generate_task_data` both print
the exhaustion warning: the notice is not one-time, it fires on every
post-exhaustion call (the with-replacement path never sets a flag and never
changes `generated_combinations`). -/
theorem c3_notice_counterexample :
    (runGenerator allCombinationsSeen
        [([], ("square", "triangle", 45)), ([], ("square", "triangle", 45))]).map
      (fun p => p.1.map Prod.snd) = some [true, true] := by
  rw [runGenerator_exhausted allCombinationsSeen_card]
  rfl

/-- C3 (amended): once `generated_combinations` holds all `max_keys` keys,
every subsequent call emits the exhaustion notice (not just the first one)
and samples with replacement from the fresh random draw, permitting
duplicate keys and leaving the state unchanged. -/
theorem c3_exhaustion_behavior (draws : List CombKey) (rd : CombKey)
    (seen : Finset CombKey) (h : seen.card = max_unique_combinations) :
    generate_task_data draws rd seen
      = some (generate_rotation_task rd.1 rd.2.1 rd.2.2, true, seen) :=
  generate_task_data_exhausted h

theorem c3_exhaustion_behavior_witness :
    allCombinationsSeen.card = max_unique_combinations ∧
    generate_task_data [] ("square", "triangle", 45) allCombinationsSeen
      = some (generate_rotation_task "square" "triangle" 45, true, allCombinationsSeen) :=
  ⟨allCombinationsSeen_card,
    c3_exhaustion_behavior [] ("square", "triangle", 45) allCombinationsSeen
      allCombinationsSeen_card⟩

/-- C8: every task dictionary emitted by `_generate_task_data` (under the
semantics of `random.sample`/`random.choice`, captured by `ValidKey` on the
random draws) has `shape_b = shape_a`, `shape_d = shape_c`,
`shape_a ≠ shape_c`, both shapes in the 20-element catalog and the angle in
the 46-element catalog. -/
theorem c8_task_wellformed (draws : List CombKey) (rd : CombKey)
    (seen seen' : Finset CombKey) (t : TaskData) (w : Bool)
    (hdraws : ∀ k ∈ draws, ValidKey k) (hrd : ValidKey rd)
    (h : generate_task_data draws rd seen = some (t, w, seen')) :
    t.shape_b = t.shape_a ∧ t.shape_d = t.shape_c ∧ t.shape_a ≠ t.shape_c ∧
    t.shape_a ∈ base_shapes ∧ t.shape_c ∈ base_shapes ∧
    t.rotation_angle ∈ rotation_angles := by
  unfold generate_task_data at h
  split at h
  · cases hfind : findFirstUnseen seen (draws.take 1000) with
    | some k =>
      rw [hfind] at h
      dsimp only at h
      cases h
      have hv : ValidKey k :=
        hdraws k (List.take_subset _ _ (findFirstUnseen_some hfind).2)
      exact ⟨rfl, rfl, hv.2.2.1, hv.1, hv.2.1, hv.2.2.2⟩
    | none =>
      rw [hfind] at h
      dsimp only at h
      unfold generate_systematic_unique_combination at h
      cases hsys : findFirstUnseen seen allCombinations with
      | some k =>
        rw [hsys] at h
        dsimp only at h
        cases h
        have hv : ValidKey k :=
          validKey_of_mem_allCombinations (findFirstUnseen_some hsys).2
        exact ⟨rfl, rfl, hv.2.2.1, hv.1, hv.2.1, hv.2.2.2⟩
      | none =>
        rw [hsys] at h
        cases h
  · cases h
    exact ⟨rfl, rfl, hrd.2.2.1, hrd.1, hrd.2.1, hrd.2.2.2⟩

theorem c8_task_wellformed_witness :
    (∀ k ∈ ([("square", "triangle", 45)] : List CombKey), ValidKey k) ∧
    ValidKey ("square", "triangle", 45) ∧
    generate_task_data [("square", "triangle", 45)] ("square", "triangle", 45) ∅
      = some (generate_rotation_task "square" "triangle" 45, false,
              insert ("square", "triangle", 45) ∅) ∧
    ((generate_rotation_task "square" "triangle" 45).shape_b
        = (generate_rotation_task "square" "triangle" 45).shape_a ∧
      (generate_rotation_task "square" "triangle" 45).shape_d
        = (generate_rotation_task "square" "triangle" 45).shape_c ∧
      (generate_rotation_task "square" "triangle" 45).shape_a
        ≠ (generate_rotation_task "square" "triangle" 45).shape_c ∧
      (generate_rotation_task "square" "triangle" 45).shape_a ∈ base_shapes ∧
      (generate_rotation_task "square" "triangle" 45).shape_c ∈ base_shapes ∧
      (generate_rotation_task "square" "triangle" 45).rotation_angle ∈ rotation_angles) :=
  ⟨by decide, by decide, by decide,
    c8_task_wellformed [("square", "triangle", 45)] ("square", "triangle", 45)
      ∅ (insert ("square", "triangle", 45) ∅)
      (generate_rotation_task "square" "triangle" 45) false
      (by decide) (by decide) (by decide)⟩

/-! ### Geometry engine

Python floats are embedded as real numbers; `int()` is truncation toward
zero. -/

/-- Python `int()` on a float: truncation toward zero. -/
noncomputable def trunc (x : ℝ) : ℤ := if 0 ≤ x then ⌊x⌋ else ⌈x⌉

/-- Embeds `TaskGenerator._rotate_points`: rotate each point by `angle` (radians),
translate by the center, and convert to integer pixel coordinates with
`int()`. -/
noncomputable def rotate_points (points : List (ℝ × ℝ)) (angle : ℝ)
    (center_x center_y : ℤ) : List (ℤ × ℤ) :=
  let cos_a := Real.cos angle
  let sin_a := Real.sin angle
  points.map (fun p =>
    (trunc (p.1 * cos_a - p.2 * sin_a + center_x),
     trunc (p.1 * sin_a + p.2 * cos_a + center_y)))

/-- The local-frame vertex table of `_draw_rotated_shape`: one branch per
recognized shape name, in source order; `none` for a name matching no
branch. -/
noncomputable def shapeVertices (shape : String) (half_size : ℕ) :
    Option (List (ℝ × ℝ)) :=
  let hs : ℝ := half_size
  if shape = "square" then
    some [(-hs, -hs), (hs, -hs), (hs, hs), (-hs, hs)]
  else if shape = "triangle" then
    some [(0, -hs), (-hs, hs), (hs, hs)]
  else if shape = "diamond" then
    some [(0, -hs), (hs, 0), (0, hs), (-hs, 0)]
  else if shape = "pentagon" then
    some ((List.range 5).map (fun i =>
      let vertex_angle : ℝ := i * 2 * Real.pi / 5 - Real.pi / 2
      (hs * Real.cos vertex_angle, hs * Real.sin vertex_angle)))
  else if shape = "hexagon" then
    some ((List.range 6).map (fun i =>
      let vertex_angle : ℝ := i * 2 * Real.pi / 6
      (hs * Real.cos vertex_angle, hs * Real.sin vertex_angle)))
  else if shape = "rectangle" then
    let rect_width : ℤ := trunc (hs * 1.4)
    let rect_height : ℤ := trunc (hs * 0.7)
    some [(-(rect_width : ℝ), -(rect_height : ℝ)),
          ((rect_width : ℝ), -(rect_height : ℝ)),
          ((rect_width : ℝ), (rect_height : ℝ)),
          (-(rect_width : ℝ), (rect_height : ℝ))]
  else if shape = "star" then
    some ((List.range 10).map (fun i =>
      let vertex_angle : ℝ := i * Real.pi / 5 - Real.pi / 2
      if i % 2 = 0 then (hs * Real.cos vertex_angle, hs * Real.sin vertex_angle)
      else (hs * 0.4 * Real.cos vertex_angle, hs * 0.4 * Real.sin vertex_angle)))
  else if shape = "heart" then
    some [(0, hs), (-(hs * 0.7), 0), (-(hs * 0.3), -(hs * 0.5)),
          (0, -(hs * 0.2)), (hs * 0.3, -(hs * 0.5)), (hs * 0.7, 0)]
  else if shape = "octagon" then
    some ((List.range 8).map (fun i =>
      let vertex_angle : ℝ := i * 2 * Real.pi / 8
      (hs * Real.cos vertex_angle, hs * Real.sin vertex_angle)))
  else if shape = "trapezoid" then
    let top_width := hs * 0.5
    some [(-top_width, -hs), (top_width, -hs), (hs, hs), (-hs, hs)]
  else if shape = "rhombus" then
    some [(0, -hs), (hs * 0.7, 0), (0, hs), (-(hs * 0.7), 0)]
  else if shape = "plus" then
    let thickness := hs * 0.4
    some [(-thickness, -hs), (thickness, -hs), (thickness, -thickness),
          (hs, -thickness), (hs, thickness), (thickness, thickness),
          (thickness, hs), (-thickness, hs), (-thickness, thickness),
          (-hs, thickness), (-hs, -thickness), (-thickness, -thickness)]
  else if shape = "minus" then
    let thickness := hs * 0.25
    some [(-hs, -thickness), (hs, -thickness), (hs, thickness), (-hs, thickness)]
  else if shape = "L_shape" then
    let thickness := hs * 0.4
    some [(-hs, -hs), (-hs + thickness, -hs), (-hs + thickness, hs - thickness),
          (hs, hs - thickness), (hs, hs), (-hs, hs)]
  else if shape = "T_shape" then
    let thickness := hs * 0.4
    some [(-hs, -hs), (hs, -hs), (hs, -hs + thickness),
          (thickness / 2, -hs + thickness), (thickness / 2, hs),
          (-(thickness / 2), hs), (-(thickness / 2), -hs + thickness),
          (-hs, -hs + thickness)]
  else if shape = "parallelogram" then
    let skew := hs * 0.3
    some [(-hs + skew, -hs), (hs + skew, -hs), (hs - skew, hs), (-hs - skew, hs)]
  else if shape = "kite" then
    some [(0, -hs), (hs * 0.4, -(hs * 0.2)), (0, hs * 0.6), (-(hs * 0.4), -(hs * 0.2))]
  else if shape = "chevron" then
    some [(-hs, -(hs * 0.5)), (0, hs * 0.5), (hs, -(hs * 0.5)),
          (hs * 0.6, -(hs * 0.8)), (0, hs * 0.1), (-(hs * 0.6), -(hs * 0.8))]
  else if shape = "arrow" then
    some [(-hs, -(hs * 0.3)), (hs * 0.3, -(hs * 0.3)), (hs * 0.3, -hs),
          (hs, 0), (hs * 0.3, hs), (hs * 0.3, hs * 0.3), (-hs, hs * 0.3)]
  else if shape = "cross" then
    let thickness := hs * 0.3
    some [(-thickness, -hs), (thickness, -hs), (thickness, -thickness),
          (hs, -thickness), (hs, thickness), (thickness, thickness),
          (thickness, hs), (-thickness, hs), (-thickness, thickness),
          (-hs, thickness), (-hs, -thickness), (-thickness, -thickness)]
  else none

/-- RGB color triple. -/
abbrev Color := ℕ × ℕ × ℕ

/-- One drawing call issued against the PIL `ImageDraw` surface. -/
inductive RenderOp where
  | polygon (points : List (ℤ × ℤ)) (fill : Color) (outline : Color) (width : ℕ)
  | filledPolygon (points : List (ℤ × ℤ)) (fill : Color)
  | line (x1 y1 x2 y2 : ℤ) (color : Color) (width : ℕ)

/-- Embeds `TaskGenerator._draw_rotated_shape`: every recognized shape branch
computes its local vertices, rotates them with `_rotate_points` at
`math.radians(rotation_angle)`, and issues one
`draw.polygon(..., fill=color, outline=(0,0,0), width=2)`; a shape name
matching no branch falls through the `elif` chain and draws nothing. -/
noncomputable def draw_rotated_shape (shape : String) (x y : ℤ) (size : ℕ)
    (color : Color) (rotation_angle : ℝ) : List RenderOp :=
  let half_size := size / 2
  let angle_rad := rotation_angle * Real.pi / 180
  match shapeVertices shape half_size with
  | some vertices =>
    [RenderOp.polygon (rotate_points vertices angle_rad x y) color (0, 0, 0) 2]
  | none => []

/-- Embeds `TaskGenerator._draw_shape_at_position`. -/
noncomputable def draw_shape_at_position (shape : String) (position : ℤ × ℤ)
    (size : ℕ) (rotation_angle : ℝ) : List RenderOp :=
  draw_rotated_shape shape position.1 position.2 size shape_color rotation_angle

/-- Embeds `TaskGenerator._draw_arrow`: a shaft line and a filled triangular head. -/
def draw_arrow (position : ℤ × ℤ) (arrow_length : ℕ) : List RenderOp :=
  let x := position.1
  let y := position.2
  [RenderOp.line (x - ↑(arrow_length / 2)) y (x + ↑(arrow_length / 2) - 10) y (0, 0, 0) 3,
   RenderOp.filledPolygon
     [(x + ↑(arrow_length / 2), y),
      (x + ↑(arrow_length / 2) - 15, y - 8),
      (x + ↑(arrow_length / 2) - 15, y + 8)] (0, 0, 0)]

/-! ### Geometry claims -/

/-- The per-vertex transform exactly as claim C4 words it: truncation
applied to the rotated coordinate BEFORE the additive center shift. -/
noncomputable def spec_rotate_points (points : List (ℝ × ℝ)) (angle : ℝ)
    (center_x center_y : ℤ) : List (ℤ × ℤ) :=
  let cos_a := Real.cos angle
  let sin_a := Real.sin angle
  points.map (fun p =>
    (trunc (p.1 * cos_a - p.2 * sin_a) + center_x,
     trunc (p.1 * sin_a + p.2 * cos_a) + center_y))

lemma trunc_of_nonneg {x : ℝ} (h : 0 ≤ x) : trunc x = ⌊x⌋ := if_pos h

lemma trunc_of_neg {x : ℝ} (h : x < 0) : trunc x = ⌈x⌉ := if_neg (not_le.2 h)

/-- C4 (counterexample): the claim's formula truncates before adding the
center, the code truncates after.  At vertex `(0, 1)`, angle `π/6` and
center `(5, 0)` the code computes `int(-0.5 + 5) = 4` while the claim's
formula gives `trunc(-0.5) + 5 = 5`. -/
theorem c4_trunc_order_counterexample :
    rotate_points [(0, 1)] (Real.pi / 6) 5 0
      ≠ spec_rotate_points [(0, 1)] (Real.pi / 6) 5 0 := by
  intro h
  have hx := congrArg (fun l => (l.map Prod.fst).headI) h
  dsimp only at hx
  have hsin : Real.sin (Real.pi / 6) = 1 / 2 := Real.sin_pi_div_six
  have hcode : ((rotate_points [(0, 1)] (Real.pi / 6) 5 0).map Prod.fst).headI = 4 := by
    simp only [rotate_points, List.map_cons, List.map_nil, List.headI, hsin]
    rw [show ((0 : ℝ) * Real.cos (Real.pi / 6) - 1 * (1 / 2) + (5 : ℤ) : ℝ) = 9 / 2 by
      push_cast; ring]
    rw [trunc_of_nonneg (by norm_num)]
    rw [Int.floor_eq_iff]
    constructor <;> norm_num
  have hspec : ((spec_rotate_points [(0, 1)] (Real.pi / 6) 5 0).map Prod.fst).headI = 5 := by
    simp only [spec_rotate_points, List.map_cons, List.map_nil, List.headI, hsin]
    rw [show ((0 : ℝ) * Real.cos (Real.pi / 6) - 1 * (1 / 2) : ℝ) = -(1 / 2) by ring]
    rw [trunc_of_neg (by norm_num)]
    rw [show (⌈(-(1 / 2) : ℝ)⌉ : ℤ) = 0 by
      rw [Int.ceil_eq_iff]; constructor <;> norm_num]
    norm_num
  rw [hcode, hspec] at hx
  exact absurd hx (by norm_num)

/-- C4 (amended): for every vertex `(px, py)`, angle `θ` and center
`(cx, cy)`, `_rotate_points` computes `rx = px·cos θ − py·sin θ`,
`ry = px·sin θ + py·cos θ` and then `final = (trunc(rx + cx), trunc(ry + cy))`,
truncation toward zero being applied AFTER the additive center shift. -/
theorem c4_transform_formula (points : List (ℝ × ℝ)) (angle : ℝ) (cx cy : ℤ) :
    rotate_points points angle cx cy
      = points.map (fun p =>
          (trunc (p.1 * Real.cos angle - p.2 * Real.sin angle + cx),
           trunc (p.1 * Real.sin angle + p.2 * Real.cos angle + cy))) := rfl

/-- C6: the geometry pipeline is deterministic — `_rotate_points`, and the
full per-shape instantiate-plus-transform pipeline of `_draw_rotated_shape`,
yield identical results on identical arguments (they are pure functions of
their arguments in the embedding; the source reads no mutable state in
them). -/
theorem c6_geometry_determinism (shape : String) (x y : ℤ) (size : ℕ)
    (color : Color) (rotation_angle : ℝ) :
    draw_rotated_shape shape x y size color rotation_angle
        = draw_rotated_shape shape x y size color rotation_angle ∧
    ∀ (points : List (ℝ × ℝ)) (angle : ℝ) (cx cy : ℤ),
      rotate_points points angle cx cy = rotate_points points angle cx cy :=
  ⟨rfl, fun _ _ _ _ => rfl⟩

/-- C9: at angle 0 the rotation is the identity: for every archetype's
vertex list `v` and every center, `_rotate_points v 0 c` is `v` translated
by the center, up to the integer-pixel conversion `trunc`. -/
theorem c9_rotation_identity (shape : String) (half_size : ℕ)
    (v : List (ℝ × ℝ)) (hv : shapeVertices shape half_size = some v)
    (cx cy : ℤ) :
    rotate_points v 0 cx cy
      = v.map (fun p => (trunc (p.1 + cx), trunc (p.2 + cy))) := by
  unfold rotate_points
  simp [Real.cos_zero, Real.sin_zero]

theorem c9_rotation_identity_witness :
    shapeVertices "square" 10 = some [(-(10 : ℝ), -10), (10, -10), (10, 10), (-10, 10)] ∧
    rotate_points [(-(10 : ℝ), -10), (10, -10), (10, 10), (-10, 10)] 0 3 4
      = [(-(10 : ℝ), -10), (10, -10), (10, 10), (-10, 10)].map
          (fun p => (trunc (p.1 + 3), trunc (p.2 + 4))) := by
  have hv : shapeVertices "square" 10
      = some [(-(10 : ℝ), -10), (10, -10), (10, 10), (-10, 10)] := by
    simp [shapeVertices]
  exact ⟨hv, c9_rotation_identity "square" 10 _ hv 3 4⟩

/-- C10: a shape identifier outside the 20-name catalog matches none of the
`elif` branches of `_draw_rotated_shape`: the call returns without issuing
any drawing operation and without raising (the embedding is a total
function returning the empty operation list). -/
theorem c10_unknown_shape_noop (shape : String) (h : shape ∉ base_shapes)
    (x y : ℤ) (size : ℕ) (color : Color) (rotation_angle : ℝ) :
    draw_rotated_shape shape x y size color rotation_angle = [] := by
  simp only [base_shapes, List.mem_cons, List.not_mem_nil, or_false] at h
  push_neg at h
  obtain ⟨h1, h2, h3, h4, h5, h6, h7, h8, h9, h10,
    h11, h12, h13, h14, h15, h16, h17, h18, h19, h20⟩ := h
  have hv : shapeVertices shape (size / 2) = none := by
    unfold shapeVertices
    simp [h1, h2, h3, h4, h5, h6, h7, h8, h9, h10,
      h11, h12, h13, h14, h15, h16, h17, h18, h19, h20]
  simp only [draw_rotated_shape, hv]

theorem c10_unknown_shape_noop_witness :
    ("circle" ∉ base_shapes) ∧
    draw_rotated_shape "circle" 0 0 20 shape_color 45 = [] :=
  ⟨by decide, c10_unknown_shape_noop "circle" (by decide) 0 0 20 shape_color 45⟩

/-! ### Animation frame synthesizer -/

/-- The configuration values read by the animation code
(`config.image_size`, `config.margin`, `config.shape_size`,
`config.arrow_length`). -/
structure TaskConfig where
  width : ℕ
  height : ℕ
  margin : ℕ
  shape_size : ℕ
  arrow_length : ℕ

/-- A rendered frame, modelled as the ordered list of drawing operations
issued on its (fresh blank) canvas. -/
abbrev Frame := List RenderOp

/-- The body of the frame loop of
`TaskGenerator._create_rotation_morph_frames` for loop index `i`:
draw A at 0, arrow, B at the full target angle, C at 0, arrow, then the
answer shape at the interpolated angle. -/
noncomputable def create_rotation_morph_frame (cfg : TaskConfig)
    (task_data : TaskData) (num_frames i : ℕ) : Frame :=
  let answer_x : ℤ := (cfg.width : ℤ) - cfg.margin - (cfg.shape_size / 2 : ℕ)
  let answer_y : ℤ := ((3 * cfg.height / 4 : ℕ) : ℤ)
  let posA : ℤ × ℤ := (((cfg.margin + cfg.shape_size / 2 : ℕ) : ℤ), ((cfg.height / 4 : ℕ) : ℤ))
  let posArrow1 : ℤ × ℤ := (((cfg.width / 2 : ℕ) : ℤ), ((cfg.height / 4 : ℕ) : ℤ))
  let posB : ℤ × ℤ :=
    ((cfg.width : ℤ) - cfg.margin - (cfg.shape_size / 2 : ℕ), ((cfg.height / 4 : ℕ) : ℤ))
  let posC : ℤ × ℤ :=
    (((cfg.margin + cfg.shape_size / 2 : ℕ) : ℤ), ((3 * cfg.height / 4 : ℕ) : ℤ))
  let posArrow2 : ℤ × ℤ := (((cfg.width / 2 : ℕ) : ℤ), ((3 * cfg.height / 4 : ℕ) : ℤ))
  let static_rotation_angle : ℝ := (task_data.rotation_angle : ℝ)
  let target_rotation : ℝ := (task_data.rotation_angle : ℝ)
  let rotation_progress : ℝ :=
    if 1 < num_frames then (i : ℝ) / ((num_frames : ℝ) - 1) else 1
  let current_rotation : ℝ := target_rotation * rotation_progress
  draw_shape_at_position task_data.shape_a posA cfg.shape_size 0
    ++ draw_arrow posArrow1 cfg.arrow_length
    ++ draw_shape_at_position task_data.shape_b posB cfg.shape_size static_rotation_angle
    ++ draw_shape_at_position task_data.shape_c posC cfg.shape_size 0
    ++ draw_arrow posArrow2 cfg.arrow_length
    ++ draw_rotated_shape task_data.shape_c answer_x answer_y cfg.shape_size
        shape_color current_rotation

/-- Embeds `TaskGenerator._create_rotation_morph_frames`. -/
noncomputable def create_rotation_morph_frames (cfg : TaskConfig)
    (task_data : TaskData) (num_frames : ℕ) : List Frame :=
  (List.range num_frames).map (create_rotation_morph_frame cfg task_data num_frames)

/-- Embeds `TaskGenerator._create_transformation_frames`: hold the initial image,
play the rotation morph, hold the final image. -/
noncomputable def create_transformation_frames (cfg : TaskConfig)
    (first_image final_image : Frame) (task_data : TaskData)
    (hold_frames : ℕ := 15) (rotation_frames : ℕ := 30) : List Frame :=
  List.replicate hold_frames first_image
    ++ create_rotation_morph_frames cfg task_data rotation_frames
    ++ List.replicate hold_frames final_image

/-- C2: in every interpolated frame the A slot is drawn at angle 0, the B
slot at the full target angle, the C slot at angle 0 and both arrows at
their fixed anchors; this static prefix is one and the same operation list
for any two frame indices `i, j` of the sequence, and only the trailing D
slot render varies with the frame index (through its interpolated angle). -/
theorem c2_static_slots_invariant (cfg : TaskConfig) (td : TaskData) (n i j : ℕ)
    (hi : i < n) (hj : j < n) :
    ∃ staticOps : Frame,
      staticOps
        = draw_shape_at_position td.shape_a
            (((cfg.margin + cfg.shape_size / 2 : ℕ) : ℤ), ((cfg.height / 4 : ℕ) : ℤ))
            cfg.shape_size 0
          ++ draw_arrow (((cfg.width / 2 : ℕ) : ℤ), ((cfg.height / 4 : ℕ) : ℤ))
            cfg.arrow_length
          ++ draw_shape_at_position td.shape_b
            ((cfg.width : ℤ) - cfg.margin - (cfg.shape_size / 2 : ℕ),
              ((cfg.height / 4 : ℕ) : ℤ))
            cfg.shape_size (td.rotation_angle : ℝ)
          ++ draw_shape_at_position td.shape_c
            (((cfg.margin + cfg.shape_size / 2 : ℕ) : ℤ), ((3 * cfg.height / 4 : ℕ) : ℤ))
            cfg.shape_size 0
          ++ draw_arrow (((cfg.width / 2 : ℕ) : ℤ), ((3 * cfg.height / 4 : ℕ) : ℤ))
            cfg.arrow_length ∧
      (create_rotation_morph_frames cfg td n)[i]?
        = some (staticOps
            ++ draw_rotated_shape td.shape_c
              ((cfg.width : ℤ) - cfg.margin - (cfg.shape_size / 2 : ℕ))
              ((3 * cfg.height / 4 : ℕ) : ℤ) cfg.shape_size shape_color
              ((td.rotation_angle : ℝ) * (if 1 < n then (i : ℝ) / ((n : ℝ) - 1) else 1))) ∧
      (create_rotation_morph_frames cfg td n)[j]?
        = some (staticOps
            ++ draw_rotated_shape td.shape_c
              ((cfg.width : ℤ) - cfg.margin - (cfg.shape_size / 2 : ℕ))
              ((3 * cfg.height / 4 : ℕ) : ℤ) cfg.shape_size shape_color
              ((td.rotation_angle : ℝ) * (if 1 < n then (j : ℝ) / ((n : ℝ) - 1) else 1))) := by
  refine ⟨_, rfl, ?_, ?_⟩
  · simp only [create_rotation_morph_frames, List.getElem?_map, List.getElem?_range, hi,
      if_pos, Option.map_some]
    simp [create_rotation_morph_frame, List.append_assoc, mul_ite, mul_one]
  · simp only [create_rotation_morph_frames, List.getElem?_map, List.getElem?_range, hj,
      if_pos, Option.map_some]
    simp [create_rotation_morph_frame, List.append_assoc, mul_ite, mul_one]

theorem c2_static_slots_invariant_witness :
    (0 < 30 ∧ 29 < 30) ∧
    ∃ staticOps : Frame,
      staticOps
        = draw_shape_at_position (generate_rotation_task "square" "triangle" 45).shape_a
            (((50 + 100 / 2 : ℕ) : ℤ), ((600 / 4 : ℕ) : ℤ)) 100 0
          ++ draw_arrow (((800 / 2 : ℕ) : ℤ), ((600 / 4 : ℕ) : ℤ)) 80
          ++ draw_shape_at_position (generate_rotation_task "square" "triangle" 45).shape_b
            (((800 : ℕ) : ℤ) - (50 : ℕ) - ((100 / 2 : ℕ) : ℤ), ((600 / 4 : ℕ) : ℤ)) 100
            ((generate_rotation_task "square" "triangle" 45).rotation_angle : ℝ)
          ++ draw_shape_at_position (generate_rotation_task "square" "triangle" 45).shape_c
            (((50 + 100 / 2 : ℕ) : ℤ), ((3 * 600 / 4 : ℕ) : ℤ)) 100 0
          ++ draw_arrow (((800 / 2 : ℕ) : ℤ), ((3 * 600 / 4 : ℕ) : ℤ)) 80 ∧
      (create_rotation_morph_frames ⟨800, 600, 50, 100, 80⟩
          (generate_rotation_task "square" "triangle" 45) 30)[(0 : ℕ)]?
        = some (staticOps
            ++ draw_rotated_shape (generate_rotation_task "square" "triangle" 45).shape_c
              (((800 : ℕ) : ℤ) - (50 : ℕ) - ((100 / 2 : ℕ) : ℤ)) ((3 * 600 / 4 : ℕ) : ℤ)
              100 shape_color
              (((generate_rotation_task "square" "triangle" 45).rotation_angle : ℝ)
                * (if 1 < 30 then ((0 : ℕ) : ℝ) / (((30 : ℕ) : ℝ) - 1) else 1))) ∧
      (create_rotation_morph_frames ⟨800, 600, 50, 100, 80⟩
          (generate_rotation_task "square" "triangle" 45) 30)[(29 : ℕ)]?
        = some (staticOps
            ++ draw_rotated_shape (generate_rotation_task "square" "triangle" 45).shape_c
              (((800 : ℕ) : ℤ) - (50 : ℕ) - ((100 / 2 : ℕ) : ℤ)) ((3 * 600 / 4 : ℕ) : ℤ)
              100 shape_color
              (((generate_rotation_task "square" "triangle" 45).rotation_angle : ℝ)
                * (if 1 < 30 then ((29 : ℕ) : ℝ) / (((30 : ℕ) : ℝ) - 1) else 1))) :=
  ⟨⟨by decide, by decide⟩,
    c2_static_slots_invariant ⟨800, 600, 50, 100, 80⟩
      (generate_rotation_task "square" "triangle" 45) 30 0 29 (by decide) (by decide)⟩

/-- C7: with the default parameters `hold_frames = 15` and
`rotation_frames = 30`, `_create_transformation_frames` returns 15 copies
of the initial image, then the 30 interpolated frames, then 15 copies of
the final image — 60 frames total in that order; interpolated frame `i`
renders the D slot at angle `target · (i / 29)`, strictly linear, so the
last interpolated frame (`i = 29`) is at the full target angle. -/
theorem c7_transformation_frames_structure (cfg : TaskConfig)
    (first_image final_image : Frame) (td : TaskData) :
    create_transformation_frames cfg first_image final_image td
      = List.replicate 15 first_image
        ++ (List.range 30).map (create_rotation_morph_frame cfg td 30)
        ++ List.replicate 15 final_image ∧
    (create_transformation_frames cfg first_image final_image td).length = 60 ∧
    (∀ i : ℕ, i < 30 →
      ∃ staticOps : Frame,
        (create_rotation_morph_frames cfg td 30)[i]?
          = some (staticOps
              ++ draw_rotated_shape td.shape_c
                ((cfg.width : ℤ) - cfg.margin - (cfg.shape_size / 2 : ℕ))
                ((3 * cfg.height / 4 : ℕ) : ℤ) cfg.shape_size shape_color
                ((td.rotation_angle : ℝ) * ((i : ℝ) / 29)))) ∧
    (∃ staticOps : Frame,
      (create_rotation_morph_frames cfg td 30)[(29 : ℕ)]?
        = some (staticOps
            ++ draw_rotated_shape td.shape_c
              ((cfg.width : ℤ) - cfg.margin - (cfg.shape_size / 2 : ℕ))
              ((3 * cfg.height / 4 : ℕ) : ℤ) cfg.shape_size shape_color
              (td.rotation_angle : ℝ))) := by
  have hstatic : ∀ i : ℕ, i < 30 →
      (create_rotation_morph_frames cfg td 30)[i]?
        = some ((draw_shape_at_position td.shape_a
              (((cfg.margin + cfg.shape_size / 2 : ℕ) : ℤ), ((cfg.height / 4 : ℕ) : ℤ))
              cfg.shape_size 0
            ++ draw_arrow (((cfg.width / 2 : ℕ) : ℤ), ((cfg.height / 4 : ℕ) : ℤ))
              cfg.arrow_length
            ++ draw_shape_at_position td.shape_b
              ((cfg.width : ℤ) - cfg.margin - (cfg.shape_size / 2 : ℕ),
                ((cfg.height / 4 : ℕ) : ℤ))
              cfg.shape_size (td.rotation_angle : ℝ)
            ++ draw_shape_at_position td.shape_c
              (((cfg.margin + cfg.shape_size / 2 : ℕ) : ℤ), ((3 * cfg.height / 4 : ℕ) : ℤ))
              cfg.shape_size 0
            ++ draw_arrow (((cfg.width / 2 : ℕ) : ℤ), ((3 * cfg.height / 4 : ℕ) : ℤ))
              cfg.arrow_length)
          ++ draw_rotated_shape td.shape_c
            ((cfg.width : ℤ) - cfg.margin - (cfg.shape_size / 2 : ℕ))
            ((3 * cfg.height / 4 : ℕ) : ℤ) cfg.shape_size shape_color
            ((td.rotation_angle : ℝ) * ((i : ℝ) / 29))) := by
    intro i hi
    simp only [create_rotation_morph_frames, List.getElem?_map, List.getElem?_range, hi,
      if_pos, Option.map_some]
    simp [create_rotation_morph_frame, List.append_assoc, mul_ite, mul_one]
    norm_num
  refine ⟨rfl, ?_, ?_, ?_⟩
  · simp [create_transformation_frames, create_rotation_morph_frames]
  · intro i hi
    exact ⟨_, hstatic i hi⟩
  · refine ⟨draw_shape_at_position td.shape_a
        (((cfg.margin + cfg.shape_size / 2 : ℕ) : ℤ), ((cfg.height / 4 : ℕ) : ℤ))
        cfg.shape_size 0
      ++ draw_arrow (((cfg.width / 2 : ℕ) : ℤ), ((cfg.height / 4 : ℕ) : ℤ))
        cfg.arrow_length
      ++ draw_shape_at_position td.shape_b
        ((cfg.width : ℤ) - cfg.margin - (cfg.shape_size / 2 : ℕ),
          ((cfg.height / 4 : ℕ) : ℤ))
        cfg.shape_size (td.rotation_angle : ℝ)
      ++ draw_shape_at_position td.shape_c
        (((cfg.margin + cfg.shape_size / 2 : ℕ) : ℤ), ((3 * cfg.height / 4 : ℕ) : ℤ))
        cfg.shape_size 0
      ++ draw_arrow (((cfg.width / 2 : ℕ) : ℤ), ((3 * cfg.height / 4 : ℕ) : ℤ))
        cfg.arrow_length, ?_⟩
    have h := hstatic 29 (by norm_num)
    rw [h]
    norm_num

theorem c7_transformation_frames_structure_witness :
    create_transformation_frames ⟨800, 600, 50, 100, 80⟩ [] []
        (generate_rotation_task "square" "triangle" 45)
      = List.replicate 15 []
        ++ (List.range 30).map (create_rotation_morph_frame ⟨800, 600, 50, 100, 80⟩
            (generate_rotation_task "square" "triangle" 45) 30)
        ++ List.replicate 15 [] ∧
    (create_transformation_frames ⟨800, 600, 50, 100, 80⟩ [] []
        (generate_rotation_task "square" "triangle" 45)).length = 60 ∧
    (3 < 30) ∧
    (∃ staticOps : Frame,
      (create_rotation_morph_frames ⟨800, 600, 50, 100, 80⟩
          (generate_rotation_task "square" "triangle" 45) 30)[(3 : ℕ)]?
        = some (staticOps
            ++ draw_rotated_shape (generate_rotation_task "square" "triangle" 45).shape_c
              (((800 : ℕ) : ℤ) - (50 : ℕ) - ((100 / 2 : ℕ) : ℤ)) ((3 * 600 / 4 : ℕ) : ℤ)
              100 shape_color
              (((generate_rotation_task "square" "triangle" 45).rotation_angle : ℝ)
                * (((3 : ℕ) : ℝ) / 29)))) ∧
    (∃ staticOps : Frame,
      (create_rotation_morph_frames ⟨800, 600, 50, 100, 80⟩
          (generate_rotation_task "square" "triangle" 45) 30)[(29 : ℕ)]?
        = some (staticOps
            ++ draw_rotated_shape (generate_rotation_task "square" "triangle" 45).shape_c
              (((800 : ℕ) : ℤ) - (50 : ℕ) - ((100 / 2 : ℕ) : ℤ)) ((3 * 600 / 4 : ℕ) : ℤ)
              100 shape_color
              ((generate_rotation_task "square" "triangle" 45).rotation_angle : ℝ))) :=
  ⟨(c7_transformation_frames_structure ⟨800, 600, 50, 100, 80⟩ [] []
      (generate_rotation_task "square" "triangle" 45)).1,
   (c7_transformation_frames_structure ⟨800, 600, 50, 100, 80⟩ [] []
      (generate_rotation_task "square" "triangle" 45)).2.1,
   by decide,
   (c7_transformation_frames_structure ⟨800, 600, 50, 100, 80⟩ [] []
      (generate_rotation_task "square" "triangle" 45)).2.2.1 3 (by decide),
   (c7_transformation_frames_structure ⟨800, 600, 50, 100, 80⟩ [] []
      (generate_rotation_task "square" "triangle" 45)).2.2.2⟩

end ShapeRotation
